import Mathlib

/-!
Verification of the EN New Sustainers month-filter pipeline (`main.py`).

The program loads a donor-export table, filters rows to a target month by a
lenient day-first parse of the `Campaign Data 16` column, sorts by parsed
date, projects/renames a fixed column list, rewrites the date column through
a strict `D/M/Y → MM/DD/YYYY` reformatter, and writes a per-month CSV.

The embedding models Python string primitives (`str.strip`, `str.split('/')`,
`str.zfill`, `int(...)`) over `List Char`, tables as a header list plus rows
of cells, and the pandas date parser as a parameter `parse : String → Option
PDate` (with one concrete instance, `lenientParse`, modelled from the spec
for the day-first slash format, since `pd.to_datetime` is external code).
-/

/-! ## Python string primitives -/

/-- Whitespace characters removed by Python `str.strip()`. -/
def isPySpace (c : Char) : Bool :=
  c == ' ' || c == '\t' || c == '\n' || c == '\r' || c == '\x0b' || c == '\x0c'

/-- Python `str.strip()`: drop leading and trailing whitespace. -/
def pyStrip (s : String) : String :=
  String.mk (((s.data.dropWhile isPySpace).reverse.dropWhile isPySpace).reverse)

/-- Python `s.split("/")`: split on every `'/'`; `"" ↦ [""]`, empty chunks kept. -/
def pySplit (s : String) : List String :=
  (s.data.splitOn '/').map String.mk

/-- Python `str.zfill(width)` on the character list: left-pad with `'0'` to
`width`, inserting the padding after a leading sign character. -/
def zfillChars (width : Nat) (l : List Char) : List Char :=
  if width ≤ l.length then l
  else if l.headD ' ' == '-' || l.headD ' ' == '+' then
    l.take 1 ++ List.replicate (width - l.length) '0' ++ l.drop 1
  else List.replicate (width - l.length) '0' ++ l

/-- Python `str.zfill(width)`. -/
def zfill (width : Nat) (s : String) : String :=
  String.mk (zfillChars width s.data)

/-- Numeric value of a digit string (used to compare date fields numerically). -/
def digitsVal (l : List Char) : Nat :=
  l.foldl (fun n c => 10 * n + (c.toNat - '0'.toNat)) 0

/-- Numeric value of a `String` of digits. -/
def strNum (s : String) : Nat := digitsVal s.data

/-- A nonempty all-digit string: the well-formed shape of a date field. -/
def isDigits (s : String) : Bool := !s.data.isEmpty && s.data.all Char.isDigit

/-- Python `int(s)` on strings: optional sign and a nonempty digit run after
stripping surrounding whitespace; `none` models the `ValueError`. -/
def pyInt (s : String) : Option Int :=
  match (pyStrip s).data with
  | '-' :: rest =>
    if !rest.isEmpty && rest.all Char.isDigit then some (-(digitsVal rest : Int)) else none
  | '+' :: rest =>
    if !rest.isEmpty && rest.all Char.isDigit then some ((digitsVal rest : Int)) else none
  | l =>
    if !l.isEmpty && l.all Char.isDigit then some ((digitsVal l : Int)) else none

/-! ## Program constants (`main.py` lines 8-23) -/

/-- `MONTH_NAMES`: month mapping for the output filename. -/
def MONTH_NAMES : List (Int × String) :=
  [(1, "January"), (2, "February"), (3, "March"), (4, "April"),
   (5, "May"), (6, "June"), (7, "July"), (8, "August"),
   (9, "September"), (10, "October"), (11, "November"), (12, "December")]

/-- `COLUMNS_TO_KEEP`. -/
def COLUMNS_TO_KEEP : List String :=
  ["Supporter ID", "Supporter Email", "Campaign ID", "Organization or Company",
   "First Name", "Last Name", "Partner Name", "Address 1", "City", "State",
   "ZIP Code", "Raisers Edge Constituent ID", "Assigned Region",
   "Campaign Data 4", "Campaign Data 16"]

/-- `COLUMNS_TO_RENAME`. -/
def COLUMNS_TO_RENAME : List (String × String) :=
  [("Campaign Data 4", "Donation Amount"),
   ("Campaign Data 16", "Monthly Donation Start Date")]

/-! ## Date Normalizer (`main.py` lines 25-51) -/

/-- `reformat_date_string(d)`: strip, split on `'/'`; with exactly three
fields `day/month/year`, return `month.zfill(2)/day.zfill(2)/year`; any other
field count yields `""` (the `except` branch is unreachable for strings). -/
def reformat_date_string (d : String) : String :=
  match pySplit (pyStrip d) with
  | [day, month, year] => zfill 2 month ++ "/" ++ zfill 2 day ++ "/" ++ year
  | _ => ""

/-- `parse_date_column(date_str)`: strip; `None` for the literal `'nan'`
marker; split on `'/'`; with exactly three fields return `int(month)`
(`None` on `ValueError`); any other field count yields `None`. -/
def parse_date_column (date_str : String) : Option Int :=
  let s := pyStrip date_str
  if s == "nan" then none
  else match pySplit s with
  | [_day, month, _year] => pyInt month
  | _ => none

/-! ## Tables and the filter/project pipeline (`main.py` lines 53-92) -/

/-- A parsed calendar date, as produced by `pd.to_datetime`. -/
structure PDate where
  year : Int
  month : Int
  day : Int
deriving DecidableEq, Repr

/-- Chronological comparison of parsed dates (year, then month, then day). -/
def dateLE (a b : PDate) : Bool :=
  if a.year < b.year then true
  else if b.year < a.year then false
  else if a.month < b.month then true
  else if b.month < a.month then false
  else decide (a.day ≤ b.day)

/-- Comparison on optional dates; `none` (pandas `NaT`) sorts last. -/
def optDateLE : Option PDate → Option PDate → Bool
  | some a, some b => dateLE a b
  | some _, none => true
  | none, some _ => false
  | none, none => true

/-- An in-memory table: an ordered header and rows of string cells aligned
with the header. -/
structure Table where
  cols : List String
  rows : List (List String)
deriving DecidableEq, Repr

/-- Cell of `row` under column `c`, reading positions from the header. -/
def getCell (cols : List String) (row : List String) (c : String) : String :=
  match cols.indexOf? c with
  | some i => row.getD i ""
  | none => ""

/-- Modelled from the spec: the lenient, locale-aware day-first parser that
`pd.to_datetime(..., errors='coerce', dayfirst=True)` applies (external
library code, not part of this repository), restricted to slash-separated
numeric `day/month/year` strings: day first, with the usual fallback swap
when the middle field cannot be a month. -/
def lenientParse (s : String) : Option PDate :=
  match pySplit (pyStrip s) with
  | [a, b, c] =>
    match pyInt a, pyInt b, pyInt c with
    | some d, some m, some y =>
      if 1 ≤ m ∧ m ≤ 12 ∧ 1 ≤ d ∧ d ≤ 31 then some ⟨y, m, d⟩
      else if 1 ≤ d ∧ d ≤ 12 ∧ 1 ≤ m ∧ m ≤ 31 then some ⟨y, d, m⟩
      else none
    | _, _, _ => none
  | _ => none

/-- The `parsed_month` column: month of the parsed `Campaign Data 16` cell
(`df["parsed_date"].dt.month`), `none` for an unparseable date (`NaT`). -/
def rowMonth (parse : String → Option PDate) (cols : List String)
    (row : List String) : Option Int :=
  (parse (getCell cols row "Campaign Data 16")).map PDate.month

/-- Row comparison used by `sort_values(by="parsed_date")`. -/
def rowDateLE (parse : String → Option PDate) (cols : List String)
    (r1 r2 : List String) : Bool :=
  optDateLE (parse (getCell cols r1 "Campaign Data 16"))
    (parse (getCell cols r2 "Campaign Data 16"))

/-- Insert into a sorted list (ordinary comparison-sort insertion). -/
def insertSorted (le : α → α → Bool) (a : α) : List α → List α
  | [] => [a]
  | b :: bs => if le a b then a :: b :: bs else b :: insertSorted le a bs

/-- Comparison sort modelling `sort_values` (the source's default `quicksort`
kind is a deterministic comparison sort; order among equal keys is an
implementation detail there, see the stability discussion). -/
def sortRows (le : α → α → Bool) : List α → List α
  | [] => []
  | a :: as => insertSorted le a (sortRows le as)

/-- Renaming of one column label per `COLUMNS_TO_RENAME` (`df.rename`). -/
def renameColumn (c : String) : String :=
  (COLUMNS_TO_RENAME.lookup c).getD c

/-- The fixed output header: `COLUMNS_TO_KEEP` after renaming. -/
def OUTPUT_COLUMNS : List String := COLUMNS_TO_KEEP.map renameColumn

/-- Projection of a row to `COLUMNS_TO_KEEP` (`df[COLUMNS_TO_KEEP]`). -/
def projectRow (cols : List String) (row : List String) : List String :=
  COLUMNS_TO_KEEP.map (getCell cols row)

/-- Rewriting of the renamed date column through `reformat_date_string`
(`.apply` on `"Monthly Donation Start Date"`), cell positions read from the
output header. -/
def rewriteDateCell (row : List String) : List String :=
  (OUTPUT_COLUMNS.zip row).map
    (fun p => if p.1 == "Monthly Donation Start Date" then reformat_date_string p.2 else p.2)

/-- Full per-row output transformation: project, rename, rewrite the date. -/
def outputRow (cols : List String) (row : List String) : List String :=
  rewriteDateCell (projectRow cols row)

/-- Failures of `process_csv`: the explicit `ValueError` for the missing date
column, and the `KeyError` of `df[COLUMNS_TO_KEEP]` (both surface as the
generic wrapped exception). -/
inductive ProcErr where
  | missingColumn
  | missingKeepColumns
deriving DecidableEq, Repr

/-- `process_csv(csv_file, target_month)`: check `Campaign Data 16` is
present, parse dates and take months, filter rows to the target month, sort
by parsed date, project to `COLUMNS_TO_KEEP` (failing when a kept column is
absent), rename, and reformat the date column. -/
def process_csv (parse : String → Option PDate) (t : Table)
    (target_month : Int) : Except ProcErr Table :=
  if "Campaign Data 16" ∉ t.cols then .error .missingColumn
  else
    let matched := t.rows.filter (fun r => rowMonth parse t.cols r == some target_month)
    let sorted := sortRows (rowDateLE parse t.cols) matched
    if COLUMNS_TO_KEEP.all (fun c => t.cols.contains c) then
      .ok { cols := OUTPUT_COLUMNS, rows := sorted.map (outputRow t.cols) }
    else .error .missingKeepColumns

/-- `save_filtered_csv(filtered_df, target_month, output_dir)`: look up the
month name (a raising `MONTH_NAMES[target_month]` dictionary access, `none`
models the `KeyError`), then build the path and write the table; the value
carries the written path and content. -/
def save_filtered_csv (filtered_df : Table) (target_month : Int)
    (output_dir : String) : Option (String × Table) :=
  (MONTH_NAMES.lookup target_month).map
    (fun month_name =>
      (output_dir ++ "/" ++ month_name ++ " New EN Monthly Donors.csv", filtered_df))

/-! ## CLI surface (`main.py` lines 149-201) -/

/-- Observable events of one `run_cli` execution, in order. -/
inductive CliEvent where
  | checkExists (path : String)
  | printFileNotFound
  | printMonthError
  | openInput (path : String)
  | printProcessError
  | writeOutput (path : String)
  | printSuccess (count : Nat)
deriving DecidableEq, Repr

/-- Event trace of `run_cli` when both arguments are supplied: the
`os.path.exists` probe comes first, then the month argument is parsed with
`int(...)` and range-checked, and only then is the input opened, processed
and the result written. `fileExists` models the file system's answer and
`t` the table `pd.read_csv` would load. -/
def run_cli_trace (parse : String → Option PDate) (csvArg monthArg : String)
    (fileExists : Bool) (t : Table) : List CliEvent :=
  CliEvent.checkExists csvArg ::
  (if !fileExists then [CliEvent.printFileNotFound]
   else match pyInt monthArg with
   | none => [CliEvent.printMonthError]
   | some m =>
     if m < 1 ∨ 12 < m then [CliEvent.printMonthError]
     else
       CliEvent.openInput csvArg ::
       (match process_csv parse t m with
       | .error _ => [CliEvent.printProcessError]
       | .ok out =>
         match save_filtered_csv out m "." with
         | none => [CliEvent.printProcessError]
         | some (path, _) => [CliEvent.writeOutput path, CliEvent.printSuccess out.rows.length]))

/-! ## Concrete tables for the specified scenarios -/

/-- One full-width input row: supporter id, filler cells in the remaining
kept columns, a donation amount, and a `Campaign Data 16` date. -/
def exRow (sid amt date : String) : List String :=
  [sid, "e@x.org", "C1", "Org", "F", "L", "P", "A1", "City", "ST",
   "00000", "RE1", "Region", amt, date]

/-- The spec's scenario table: three rows dated `5/3/2024`, `20/3/2024`,
`1/4/2024`. -/
def exTable : Table :=
  { cols := COLUMNS_TO_KEEP,
    rows := [exRow "S1" "10" "5/3/2024",
             exRow "S2" "20" "20/3/2024",
             exRow "S3" "30" "1/4/2024"] }

/-- The scenario table with an extra input column appended. -/
def exTableExtra : Table :=
  { cols := COLUMNS_TO_KEEP ++ ["Extra Column"],
    rows := [exRow "S1" "10" "5/3/2024" ++ ["x1"],
             exRow "S2" "20" "20/3/2024" ++ ["x2"],
             exRow "S3" "30" "1/4/2024" ++ ["x3"]] }

/-- Expected pipeline output for `exTable` at target month 3. -/
def exOut : Table :=
  { cols := ["Supporter ID", "Supporter Email", "Campaign ID",
             "Organization or Company", "First Name", "Last Name",
             "Partner Name", "Address 1", "City", "State", "ZIP Code",
             "Raisers Edge Constituent ID", "Assigned Region",
             "Donation Amount", "Monthly Donation Start Date"],
    rows := [["S1", "e@x.org", "C1", "Org", "F", "L", "P", "A1", "City", "ST",
              "00000", "RE1", "Region", "10", "03/05/2024"],
             ["S2", "e@x.org", "C1", "Org", "F", "L", "P", "A1", "City", "ST",
              "00000", "RE1", "Region", "20", "03/20/2024"]] }

/-! ## Helper lemmas -/

theorem str_data_append (a b : String) : (a ++ b).data = a.data ++ b.data := rfl

theorem string_mk_data (s : String) : String.mk s.data = s := rfl

theorem splitOn_three (A B C : List Char) (hA : '/' ∉ A) (hB : '/' ∉ B)
    (hC : '/' ∉ C) : (A ++ '/' :: B ++ '/' :: C).splitOn '/' = [A, B, C] := by
  have h := List.splitOn_intercalate [A, B, C] '/'
    (by intro l hl; simp at hl; rcases hl with h | h | h <;> subst h <;> assumption)
    (by simp)
  simpa [List.intercalate, List.intersperse] using h

theorem pySplit_append3 (x y z : String) (hx : '/' ∉ x.data) (hy : '/' ∉ y.data)
    (hz : '/' ∉ z.data) : pySplit (x ++ "/" ++ y ++ "/" ++ z) = [x, y, z] := by
  have hdata : (x ++ "/" ++ y ++ "/" ++ z).data = x.data ++ '/' :: y.data ++ '/' :: z.data := by
    simp [str_data_append]
  unfold pySplit
  rw [hdata, splitOn_three _ _ _ hx hy hz]
  simp [string_mk_data]

theorem digit_not_sign {c : Char} (h : c.isDigit = true) :
    (c == '-' || c == '+') = false := by
  have h1 : c ≠ '-' := by intro e; subst e; exact absurd h (by decide)
  have h2 : c ≠ '+' := by intro e; subst e; exact absurd h (by decide)
  simp [h1, h2]

theorem digitsVal_replicate_zero (k : Nat) (l : List Char) :
    digitsVal (List.replicate k '0' ++ l) = digitsVal l := by
  induction k with
  | zero => rfl
  | succ n ih =>
    have hstep : digitsVal (List.replicate (n + 1) '0' ++ l)
        = digitsVal (List.replicate n '0' ++ l) := by
      simp [digitsVal, List.replicate_succ, List.foldl_cons]
    rw [hstep, ih]

theorem headD_not_sign (l : List Char) (h : l.all Char.isDigit = true) :
    (l.headD ' ' == '-' || l.headD ' ' == '+') = false := by
  cases l with
  | nil => decide
  | cons c rest =>
    have hc : c.isDigit = true := by
      rw [List.all_cons, Bool.and_eq_true] at h; exact h.1
    simpa using digit_not_sign hc

theorem zfillChars_all_digits (w : Nat) (l : List Char)
    (h : l.all Char.isDigit = true) : (zfillChars w l).all Char.isDigit = true := by
  unfold zfillChars
  by_cases hw : w ≤ l.length
  · rw [if_pos hw]; exact h
  · rw [if_neg hw, if_neg (by rw [headD_not_sign l h]; exact Bool.false_ne_true)]
    rw [List.all_append, Bool.and_eq_true]
    exact ⟨by simp [List.all_eq_true, List.mem_replicate], h⟩

theorem digitsVal_zfillChars (w : Nat) (l : List Char)
    (h : l.all Char.isDigit = true) : digitsVal (zfillChars w l) = digitsVal l := by
  unfold zfillChars
  by_cases hw : w ≤ l.length
  · rw [if_pos hw]
  · rw [if_neg hw, if_neg (by rw [headD_not_sign l h]; exact Bool.false_ne_true)]
    exact digitsVal_replicate_zero _ _

theorem digits_no_slash (l : List Char) (h : l.all Char.isDigit = true) :
    '/' ∉ l := by
  intro hm
  exact absurd (List.all_eq_true.mp h _ hm) (by decide)

theorem insertSorted_perm (le : α → α → Bool) (a : α) (l : List α) :
    (insertSorted le a l).Perm (a :: l) := by
  induction l with
  | nil => exact List.Perm.refl _
  | cons b bs ih =>
    unfold insertSorted
    by_cases h : le a b
    · rw [if_pos h]
    · rw [if_neg h]
      exact (ih.cons b).trans (List.Perm.swap a b bs)

theorem sortRows_perm (le : α → α → Bool) (l : List α) :
    (sortRows le l).Perm l := by
  induction l with
  | nil => exact List.Perm.refl _
  | cons a as ih =>
    exact (insertSorted_perm le a (sortRows le as)).trans (ih.cons a)

theorem process_csv_ok_iff (parse : String → Option PDate) (t : Table)
    (m : Int) (out : Table) :
    process_csv parse t m = .ok out ↔
      "Campaign Data 16" ∈ t.cols ∧
      COLUMNS_TO_KEEP.all (fun c => t.cols.contains c) = true ∧
      out = { cols := OUTPUT_COLUMNS,
              rows := (sortRows (rowDateLE parse t.cols)
                (t.rows.filter (fun r => rowMonth parse t.cols r == some m))).map
                (outputRow t.cols) } := by
  unfold process_csv
  by_cases h1 : "Campaign Data 16" ∈ t.cols
  · rw [if_neg (not_not_intro h1)]
    by_cases h2 : COLUMNS_TO_KEEP.all (fun c => t.cols.contains c) = true
    · rw [if_pos h2]
      constructor
      · intro h; injection h with h; exact ⟨h1, h2, h.symm⟩
      · rintro ⟨-, -, rfl⟩; rfl
    · rw [if_neg h2]
      constructor
      · intro h; cases h
      · rintro ⟨-, hc, -⟩; exact absurd hc h2
  · rw [if_pos h1]
    constructor
    · intro h; cases h
    · rintro ⟨hc, -, -⟩; exact absurd hc h1

/-! ## Claim C3: totality and failure behavior of the reformatter -/

/-- C3 counterexample: the claim says `reformat_date_string` returns `""` on
any non-numeric field, but the code never checks numericity: the three-field
input `"a/b/c"` is rearranged to `"0b/0a/c"`, not mapped to `""`. -/
theorem reformat_nonnumeric_cex :
    reformat_date_string "a/b/c" = "0b/0a/c" ∧ reformat_date_string "a/b/c" ≠ "" := by
  decide

/-- C3 (amended): `reformat_date_string` is total (never raises); it returns
the zero-padded `month/day/year` rearrangement for every input whose stripped
form splits into exactly three `/`-separated fields, numeric or not, and
returns the empty string exactly when the field count differs from three. -/
theorem reformat_date_string_total_spec (d : String) :
    (reformat_date_string d = "" ↔ (pySplit (pyStrip d)).length ≠ 3) ∧
    (∀ day month year, pySplit (pyStrip d) = [day, month, year] →
      reformat_date_string d = zfill 2 month ++ "/" ++ zfill 2 day ++ "/" ++ year) := by
  have hne : ∀ x y z : String, zfill 2 y ++ "/" ++ zfill 2 x ++ "/" ++ z ≠ "" := by
    intro x y z hc
    have h2 : (zfill 2 y ++ "/" ++ zfill 2 x ++ "/" ++ z).data = ([] : List Char) := by
      rw [hc]
    have h3 : (zfill 2 y ++ "/" ++ zfill 2 x ++ "/" ++ z).data
        = (zfill 2 y).data ++ '/' :: ((zfill 2 x).data ++ '/' :: z.data) := by
      simp [str_data_append]
    rw [h3] at h2
    simp at h2
  by_cases h3 : (pySplit (pyStrip d)).length = 3
  · obtain ⟨a, b, c, habc⟩ := List.length_eq_three.mp h3
    have hr : reformat_date_string d = zfill 2 b ++ "/" ++ zfill 2 a ++ "/" ++ c := by
      simp [reformat_date_string, habc]
    refine ⟨?_, ?_⟩
    · rw [hr]
      exact ⟨fun hc => absurd hc (hne a b c), fun hl => absurd h3 hl⟩
    · intro day month year heq
      rw [habc] at heq
      injection heq with e1 heq
      injection heq with e2 heq
      injection heq with e3 _
      rw [hr, e1, e2, e3]
  · have hr : reformat_date_string d = "" := by
      unfold reformat_date_string
      rcases hsp : pySplit (pyStrip d) with _ | ⟨a, _ | ⟨b, _ | ⟨c, _ | ⟨e, l⟩⟩⟩⟩
      · rfl
      · rfl
      · rfl
      · exact absurd (by rw [hsp]; rfl) h3
      · rfl
    refine ⟨?_, ?_⟩
    · rw [hr]; simp [h3]
    · intro day month year heq
      exact absurd (by rw [heq]; rfl) h3

/-- C3 witness: the amended spec applied to the input `"7/4/2025"`. -/
theorem reformat_date_string_total_spec_witness :
    reformat_date_string "7/4/2025" = zfill 2 "4" ++ "/" ++ zfill 2 "7" ++ "/" ++ "2025" :=
  (reformat_date_string_total_spec "7/4/2025").2 "7" "4" "2025" (by decide)

/-! ## Claim C4: totality and failure behavior of the month extractor -/

/-- C4 counterexample: the claim says any non-numeric field yields `null`,
but only `int(month)` is ever evaluated: `"x/3/y"` has non-numeric day and
year fields yet the function returns the month 3. -/
theorem parse_date_column_nonnumeric_cex :
    parse_date_column "x/3/y" = some 3 ∧ parse_date_column "x/3/y" ≠ none := by
  decide

/-- C4 (amended): `parse_date_column` is total (never raises); it returns
`none` when the stripped input is the literal `'nan'` marker or does not
split into exactly three `/`-separated fields (this covers the empty
string), and otherwise returns exactly `int(middle field)` — so only a
non-numeric month field forces `none`; non-numeric day or year fields are
never inspected. -/
theorem parse_date_column_spec (s : String) :
    (pyStrip s = "nan" → parse_date_column s = none) ∧
    ((pySplit (pyStrip s)).length ≠ 3 → parse_date_column s = none) ∧
    (∀ day month year, pyStrip s ≠ "nan" →
      pySplit (pyStrip s) = [day, month, year] →
      parse_date_column s = pyInt month) := by
  refine ⟨?_, ?_, ?_⟩
  · intro h
    simp [parse_date_column, h]
  · intro h3
    by_cases hn : pyStrip s = "nan"
    · simp [parse_date_column, hn]
    · have hb : (pyStrip s == "nan") = false := beq_eq_false_iff_ne.mpr hn
      unfold parse_date_column
      simp only [hb, Bool.false_eq_true, if_false]
      rcases hsp : pySplit (pyStrip s) with _ | ⟨a, _ | ⟨b, _ | ⟨c, _ | ⟨e, l⟩⟩⟩⟩
      · rfl
      · rfl
      · rfl
      · exact absurd (by rw [hsp]; rfl) h3
      · rfl
  · intro day month year hn hsp
    have hb : (pyStrip s == "nan") = false := beq_eq_false_iff_ne.mpr hn
    simp [parse_date_column, hb, hsp]

/-- C4 witness: the amended spec applied to the input `"7/11/2024"`. -/
theorem parse_date_column_spec_witness :
    parse_date_column "7/11/2024" = pyInt "11" :=
  (parse_date_column_spec "7/11/2024").2.2 "7" "11" "2024" (by decide) (by decide)

/-! ## Claim C7: round-trip of the reformatter on well-formed dates -/

/-- C7: for every well-formed `day/month/year` input (three nonempty numeric
fields), splitting the output of `reformat_date_string` on `/` yields the
month, day and year slots, the month and day slots compare numerically equal
to the originals, and the year is unchanged. -/
theorem reformat_roundtrip (d D M Y : String)
    (h : pySplit (pyStrip d) = [D, M, Y])
    (hD : isDigits D = true) (hM : isDigits M = true) (hY : isDigits Y = true) :
    pySplit (reformat_date_string d) = [zfill 2 M, zfill 2 D, Y] ∧
    strNum (zfill 2 M) = strNum M ∧ strNum (zfill 2 D) = strNum D := by
  have hMd : M.data.all Char.isDigit = true := by
    unfold isDigits at hM
    rw [Bool.and_eq_true] at hM
    exact hM.2
  have hDd : D.data.all Char.isDigit = true := by
    unfold isDigits at hD
    rw [Bool.and_eq_true] at hD
    exact hD.2
  have hYd : Y.data.all Char.isDigit = true := by
    unfold isDigits at hY
    rw [Bool.and_eq_true] at hY
    exact hY.2
  have hre : reformat_date_string d = zfill 2 M ++ "/" ++ zfill 2 D ++ "/" ++ Y := by
    simp [reformat_date_string, h]
  refine ⟨?_, ?_, ?_⟩
  · rw [hre]
    exact pySplit_append3 _ _ _
      (digits_no_slash _ (zfillChars_all_digits 2 M.data hMd))
      (digits_no_slash _ (zfillChars_all_digits 2 D.data hDd))
      (digits_no_slash _ hYd)
  · exact digitsVal_zfillChars 2 M.data hMd
  · exact digitsVal_zfillChars 2 D.data hDd

/-- C7 witness: the round trip at the concrete input `"5/3/2024"`. -/
theorem reformat_roundtrip_witness :
    pySplit (reformat_date_string "5/3/2024") = [zfill 2 "3", zfill 2 "5", "2024"] ∧
    strNum (zfill 2 "3") = strNum "3" ∧ strNum (zfill 2 "5") = strNum "5" :=
  reformat_roundtrip "5/3/2024" "5" "3" "2024" (by decide) (by decide) (by decide) (by decide)

/-! ## Claim C1: month filtering in the pipeline -/

/-- C1: for every table containing the date column and target month in
[1,12] on which the pipeline succeeds, the output has at most as many rows
as the input, exactly one output row per input row whose parsed month equals
the target, the output rows are (a permutation of, namely the sorted order
of) the transformed retained rows, and rows with an unparseable date never
satisfy the retention predicate. Stated for an arbitrary date parser, so it
holds in particular for the pandas day-first parser. -/
theorem process_csv_month_filter (parse : String → Option PDate) (t : Table)
    (m : Int) (out : Table)
    (_hcol : "Campaign Data 16" ∈ t.cols) (_hm : 1 ≤ m ∧ m ≤ 12)
    (h : process_csv parse t m = .ok out) :
    out.rows.length ≤ t.rows.length ∧
    out.rows.length = t.rows.countP (fun r => rowMonth parse t.cols r == some m) ∧
    out.rows.Perm ((t.rows.filter
      (fun r => rowMonth parse t.cols r == some m)).map (outputRow t.cols)) ∧
    (∀ r ∈ t.rows, parse (getCell t.cols r "Campaign Data 16") = none →
      (rowMonth parse t.cols r == some m) = false) := by
  obtain ⟨-, -, rfl⟩ := (process_csv_ok_iff parse t m out).mp h
  dsimp only
  have hlen : (List.map (outputRow t.cols)
      (sortRows (rowDateLE parse t.cols)
        (t.rows.filter (fun r => rowMonth parse t.cols r == some m)))).length
      = (t.rows.filter (fun r => rowMonth parse t.cols r == some m)).length := by
    rw [List.length_map, (sortRows_perm _ _).length_eq]
  refine ⟨?_, ?_, ?_, ?_⟩
  · rw [hlen]; exact List.length_filter_le _ _
  · rw [hlen]; exact (List.countP_eq_length_filter _ _).symm
  · exact (sortRows_perm _ _).map _
  · intro r _ hnone
    simp [rowMonth, hnone]

/-- C1 witness: the filter properties instantiated at the scenario table
with the modelled day-first parser and target month 3. -/
theorem process_csv_month_filter_witness :
    exOut.rows.length ≤ exTable.rows.length ∧
    exOut.rows.length = exTable.rows.countP
      (fun r => rowMonth lenientParse exTable.cols r == some 3) ∧
    exOut.rows.Perm ((exTable.rows.filter
      (fun r => rowMonth lenientParse exTable.cols r == some 3)).map
        (outputRow exTable.cols)) ∧
    (∀ r ∈ exTable.rows, lenientParse (getCell exTable.cols r "Campaign Data 16") = none →
      (rowMonth lenientParse exTable.cols r == some 3) = false) :=
  process_csv_month_filter lenientParse exTable 3 exOut (by decide) (by decide) (by rfl)

/-! ## Claim C2: the concrete March scenario -/

/-- C2: on the 3-row table dated `5/3/2024`, `20/3/2024`, `1/4/2024` with
target month 3, the pipeline returns exactly 2 rows; the row of supporter
`S1` (originally dated `5/3/2024`) comes before the row of supporter `S2`
(originally dated `20/3/2024`), and their rewritten `Monthly Donation Start
Date` cells read `"03/05/2024"` and `"03/20/2024"`. -/
theorem process_csv_march_scenario :
    getCell exTable.cols (exTable.rows.getD 0 []) "Campaign Data 16" = "5/3/2024" ∧
    getCell exTable.cols (exTable.rows.getD 1 []) "Campaign Data 16" = "20/3/2024" ∧
    getCell exTable.cols (exTable.rows.getD 2 []) "Campaign Data 16" = "1/4/2024" ∧
    process_csv lenientParse exTable 3 = .ok exOut ∧
    exOut.rows.length = 2 ∧
    getCell exOut.cols (exOut.rows.getD 0 []) "Supporter ID" = "S1" ∧
    getCell exOut.cols (exOut.rows.getD 1 []) "Supporter ID" = "S2" ∧
    getCell exOut.cols (exOut.rows.getD 0 []) "Monthly Donation Start Date" = "03/05/2024" ∧
    getCell exOut.cols (exOut.rows.getD 1 []) "Monthly Donation Start Date" = "03/20/2024" :=
  ⟨by decide, by decide, by decide, by rfl, by decide,
   by decide, by decide, by decide, by decide⟩

/-! ## Claim C6: the fixed output header -/

/-- C6: whenever the pipeline succeeds — in particular on tables with extra
input columns — the output header is exactly the fixed renamed column list,
in order. -/
theorem process_csv_output_columns (parse : String → Option PDate) (t : Table)
    (m : Int) (out : Table) (h : process_csv parse t m = .ok out) :
    out.cols = ["Supporter ID", "Supporter Email", "Campaign ID",
      "Organization or Company", "First Name", "Last Name", "Partner Name",
      "Address 1", "City", "State", "ZIP Code", "Raisers Edge Constituent ID",
      "Assigned Region", "Donation Amount", "Monthly Donation Start Date"] := by
  obtain ⟨-, -, rfl⟩ := (process_csv_ok_iff parse t m out).mp h
  rfl

/-- C6 witness: the fixed header obtained from the scenario table extended
with an extra input column. -/
theorem process_csv_output_columns_witness :
    exOut.cols = ["Supporter ID", "Supporter Email", "Campaign ID",
      "Organization or Company", "First Name", "Last Name", "Partner Name",
      "Address 1", "City", "State", "ZIP Code", "Raisers Edge Constituent ID",
      "Assigned Region", "Donation Amount", "Monthly Donation Start Date"] :=
  process_csv_output_columns lenientParse exTableExtra 3 exOut (by rfl)

/-! ## Claim C8: missing date column -/

/-- A table without the `Campaign Data 16` column. -/
def noDateTable : Table := { cols := ["Donor"], rows := [["x"]] }

/-- C8: on every table lacking `Campaign Data 16`, `process_csv` fails with
the missing-column error for every target month, and the CLI never reaches
the writer: no `writeOutput` event occurs in any such run. -/
theorem process_csv_missing_column (parse : String → Option PDate) (t : Table)
    (m : Int) (csvArg monthArg : String) (fe : Bool)
    (hcol : "Campaign Data 16" ∉ t.cols) :
    process_csv parse t m = .error .missingColumn ∧
    (∀ path, CliEvent.writeOutput path ∉ run_cli_trace parse csvArg monthArg fe t) := by
  have hAll : ∀ k : Int, process_csv parse t k = .error .missingColumn := by
    intro k
    unfold process_csv
    rw [if_pos hcol]
  refine ⟨hAll m, ?_⟩
  intro path
  unfold run_cli_trace
  cases fe
  · simp
  · rcases hpi : pyInt monthArg with _ | k
    · simp
    · by_cases hr : k < 1 ∨ 12 < k
      · simp [hr]
      · simp [hr, hAll k]

/-- C8 witness: the missing-column failure and the writer-free trace at a
concrete one-column table. -/
theorem process_csv_missing_column_witness :
    process_csv lenientParse noDateTable 5 = .error .missingColumn ∧
    CliEvent.writeOutput "./May New EN Monthly Donors.csv" ∉
      run_cli_trace lenientParse "input.csv" "5" true noDateTable :=
  ⟨(process_csv_missing_column lenientParse noDateTable 5 "input.csv" "5" true (by decide)).1,
   (process_csv_missing_column lenientParse noDateTable 5 "input.csv" "5" true
     (by decide)).2 "./May New EN Monthly Donors.csv"⟩

/-! ## Claim C9: rejection of an invalid month argument on the CLI -/

/-- C9 counterexample: with month argument `"13"` the run is rejected, but a
file-system operation on the input path — the `os.path.exists` probe — has
already happened before the rejection, contrary to the claim that none
occurs. -/
theorem run_cli_exists_before_reject_cex :
    run_cli_trace lenientParse "input.csv" "13" true exTable =
      [CliEvent.checkExists "input.csv", CliEvent.printMonthError] ∧
    CliEvent.checkExists "input.csv" ∈
      (run_cli_trace lenientParse "input.csv" "13" true exTable).takeWhile
        (fun e => !(e == CliEvent.printMonthError)) := by
  decide

/-- C9 (amended): an out-of-range or non-numeric month argument is rejected
before the input file is opened or read and before any pipeline run — the
trace is exactly the existence probe followed by the rejection message — but
the `os.path.exists` check on the input path does run before the month
validation. -/
theorem run_cli_invalid_month_rejected (parse : String → Option PDate)
    (csvArg monthArg : String) (t : Table)
    (hbad : pyInt monthArg = none ∨ ∃ k, pyInt monthArg = some k ∧ (k < 1 ∨ 12 < k)) :
    run_cli_trace parse csvArg monthArg true t =
      [CliEvent.checkExists csvArg, CliEvent.printMonthError] ∧
    (∀ path, CliEvent.openInput path ∉ run_cli_trace parse csvArg monthArg true t) ∧
    (∀ path, CliEvent.writeOutput path ∉ run_cli_trace parse csvArg monthArg true t) := by
  have htr : run_cli_trace parse csvArg monthArg true t =
      [CliEvent.checkExists csvArg, CliEvent.printMonthError] := by
    unfold run_cli_trace
    rcases hbad with hnone | ⟨k, hk, hr⟩
    · rw [hnone]; simp
    · rw [hk]; simp [hr]
  refine ⟨htr, ?_, ?_⟩ <;> intro path <;> rw [htr] <;> simp

/-- C9 witness: the amended behavior at the concrete month argument `"13"`. -/
theorem run_cli_invalid_month_rejected_witness :
    run_cli_trace lenientParse "f.csv" "13" true exTable =
      [CliEvent.checkExists "f.csv", CliEvent.printMonthError] ∧
    CliEvent.openInput "f.csv" ∉ run_cli_trace lenientParse "f.csv" "13" true exTable ∧
    CliEvent.writeOutput "./x.csv" ∉ run_cli_trace lenientParse "f.csv" "13" true exTable := by
  have h := run_cli_invalid_month_rejected lenientParse "f.csv" "13" exTable
    (Or.inr ⟨13, by decide, by decide⟩)
  exact ⟨h.1, h.2.1 "f.csv", h.2.2 "./x.csv"⟩

/-! ## Claim C10: the writer's implicit month precondition -/

/-- C10: `save_filtered_csv` is only defined for target months 1 through 12:
for every month outside that range the `MONTH_NAMES[target_month]` lookup
fails, so no filename is constructed and nothing is written. -/
theorem save_filtered_csv_month_domain (t : Table) (m : Int) (dir : String)
    (h : m < 1 ∨ 12 < m) : save_filtered_csv t m dir = none := by
  have h1 : (m == (1 : Int)) = false := beq_eq_false_iff_ne.mpr (by omega)
  have h2 : (m == (2 : Int)) = false := beq_eq_false_iff_ne.mpr (by omega)
  have h3 : (m == (3 : Int)) = false := beq_eq_false_iff_ne.mpr (by omega)
  have h4 : (m == (4 : Int)) = false := beq_eq_false_iff_ne.mpr (by omega)
  have h5 : (m == (5 : Int)) = false := beq_eq_false_iff_ne.mpr (by omega)
  have h6 : (m == (6 : Int)) = false := beq_eq_false_iff_ne.mpr (by omega)
  have h7 : (m == (7 : Int)) = false := beq_eq_false_iff_ne.mpr (by omega)
  have h8 : (m == (8 : Int)) = false := beq_eq_false_iff_ne.mpr (by omega)
  have h9 : (m == (9 : Int)) = false := beq_eq_false_iff_ne.mpr (by omega)
  have h10 : (m == (10 : Int)) = false := beq_eq_false_iff_ne.mpr (by omega)
  have h11 : (m == (11 : Int)) = false := beq_eq_false_iff_ne.mpr (by omega)
  have h12 : (m == (12 : Int)) = false := beq_eq_false_iff_ne.mpr (by omega)
  have hlk : MONTH_NAMES.lookup m = none := by
    simp [MONTH_NAMES, List.lookup, h1, h2, h3, h4, h5, h6, h7, h8, h9, h10, h11, h12]
  simp [save_filtered_csv, hlk]

/-- C10 witness: the writer fails at the concrete out-of-range month 13. -/
theorem save_filtered_csv_month_domain_witness :
    save_filtered_csv exOut 13 "." = none :=
  save_filtered_csv_month_domain exOut 13 "." (by decide)
